import Mathlib

/-!
Shallow embedding of the Crossplane provider for Coder workspaces
(package `workspace` in `apis/coder/v1alpha1/workspace_types.go`),
covering the connector and the external client's Observe / Create /
Update / Delete operations.

The HTTP layer is modelled by passing the remote service's (decoded)
responses as explicit inputs, and each operation additionally reports
the trace of remote calls it issued, so that properties such as
"issues exactly one POST" or "issues no remote call" are statable.
In the Go source every resty call discards its transport error
(`resp, _ := ...`); a transport failure surfaces only as a response
whose status code is not the expected success code, which the model
reflects by quantifying over arbitrary status codes.
-/

/-- The configurable fields of a Workspace (`WorkspaceParameters` in the
source).  The controller's `Create` and `Delete` additionally reference
`cr.Spec.ForProvider.UserName` and `cr.Spec.ForProvider.Template`;
those two fields are modelled from the spec's desired-state description
(username / template name), since the struct declaration in `src` omits
them while the controller code reads them. -/
structure WorkspaceParameters where
  imageID : String := ""
  orgID : String := ""
  imageTag : String := ""
  cpuCores : String := ""
  memoryGB : String := ""
  diskGB : Int := 0
  gpus : Int := 0
  useContainerVM : Bool := false
  resourcePoolID : String := ""
  namespaceField : String := ""
  enableAutoStart : Bool := false
  forUserID : Option String := none
  templateID : Option String := none
  userName : String := ""
  template : String := ""
  deriving Repr, DecidableEq

/-- A WorkspaceSpec defines the desired state of a Workspace. -/
structure WorkspaceSpec where
  forProvider : WorkspaceParameters
  deriving Repr, DecidableEq

/-- A Workspace managed resource; `name` is the object metadata name
returned by `mg.GetName()`. -/
structure Workspace where
  name : String
  spec : WorkspaceSpec
  deriving Repr, DecidableEq

/-- The `resource.Managed` handle passed to the external client; the Go
code recovers the concrete type with `mg.(*v1alpha1.Workspace)` and
fails with `errNotWorkspace` when the assertion fails. -/
inductive Managed where
  | workspace (w : Workspace)
  | other
  deriving Repr, DecidableEq

/-- Error message constants from the source. -/
def errNotWorkspace : String := "managed resource is not a Workspace custom resource"

def errTrackPCUsage : String := "cannot track ProviderConfig usage"

def errGetPC : String := "cannot get ProviderConfig"

def errGetCreds : String := "cannot get credentials"

def errNewClient : String := "cannot create new Service"

/-- `managed.ExternalObservation`. -/
structure ExternalObservation where
  resourceExists : Bool
  resourceUpToDate : Bool
  connectionDetails : List (String × String)
  deriving Repr, DecidableEq

/-- `managed.ExternalUpdate` (connection details only). -/
structure ExternalUpdate where
  connectionDetails : List (String × String)
  deriving Repr, DecidableEq

/-- The `CoderService` client: a token and the Coder endpoint URL (the
resty client handle itself carries no observable state). -/
structure CoderService where
  token : String
  coderurl : String
  deriving Repr, DecidableEq

/-- `newCoderService` from the source: builds the service from the raw
credential bytes and the URL, and never fails (it always returns a nil
error). -/
def newCoderService (creds : String) (coderURL : String) :
    Except String CoderService :=
  .ok { token := creds, coderurl := coderURL }

/-- The ProviderConfig (`pc.Spec.CoderUrl` is all Connect reads). -/
structure ProviderConfig where
  coderUrl : String
  deriving Repr, DecidableEq

/-- The failure modes of `connector.Connect`, one per `errors.Wrap` /
`errors.New` site in the source. -/
inductive ConnectError where
  | notWorkspace
  | trackPCUsage
  | getPC
  | getCreds
  | newClient
  deriving Repr, DecidableEq

/-- The environment Connect runs in: whether usage tracking succeeds,
the result of fetching the referenced ProviderConfig (`none` when the
reference is missing / the object cannot be got), and the result of
extracting the credential secret (`none` when it cannot be read). -/
structure ConnectEnv where
  trackOk : Bool
  getPC : Option ProviderConfig
  extractCreds : ProviderConfig → Option String

/-- `connector.Connect`: type-assert, track usage, get the
ProviderConfig, extract credentials, build the service. -/
def connect (mg : Managed) (env : ConnectEnv) : Except ConnectError CoderService :=
  match mg with
  | .other => .error .notWorkspace
  | .workspace _ =>
    if env.trackOk = false then .error .trackPCUsage
    else
      match env.getPC with
      | none => .error .getPC
      | some pc =>
        match env.extractCreds pc with
        | none => .error .getCreds
        | some data =>
          match newCoderService data pc.coderUrl with
          | .error _ => .error .newClient
          | .ok svc => .ok svc

/-- The spec's `CredentialResolutionError` corresponds to Connect's
`errGetPC` and `errGetCreds` wrap sites. -/
def ConnectError.isCredentialResolution : ConnectError → Bool
  | .getPC => true
  | .getCreds => true
  | _ => false

/-- The spec's `ClientConstructionError` corresponds to Connect's
`errNewClient` wrap site. -/
def ConnectError.isClientConstruction : ConnectError → Bool
  | .newClient => true
  | _ => false

/-- `external.Observe`: issues one GET for the workspace name; the
transport error is discarded, and any response status other than 200
yields `exists = false, upToDate = false` with a nil error, while a 200
yields `exists = true, upToDate = true`; connection details are empty
in both branches.  `respStatus` is the status code of the remote's
answer to `GET /api/v2/users/me/workspace/<name>` (0 models a transport
failure, whose response carries status code 0). -/
def observe (mg : Managed) (respStatus : Nat) :
    Except String ExternalObservation :=
  match mg with
  | .other => .error errNotWorkspace
  | .workspace _ =>
    if respStatus ≠ 200 then
      .ok { resourceExists := false, resourceUpToDate := false,
            connectionDetails := [] }
    else
      .ok { resourceExists := true, resourceUpToDate := true,
            connectionDetails := [] }

/-- The decoded body of `GET /api/v2/users/<username>` as Create reads
it (fields `id`, `name`, `organization_ids`). -/
structure UserResp where
  id : String
  name : String
  organization_ids : List String
  deriving Repr, DecidableEq

/-- One entry of the decoded body of
`GET /api/v2/organizations/<orgId>/templates` (fields `id`, `name`). -/
structure TemplateEntry where
  id : String
  name : String
  deriving Repr, DecidableEq

/-- A remote call issued by the external client. -/
inductive RemoteCall where
  | getUser (username : String)
  | getTemplates (orgId : String)
  | postWorkspace (orgId : String) (userId : String) (body : String)
  deriving Repr, DecidableEq

/-- The remote service as Create consumes it: the decoded user
response (`.error` when the body does not decode, e.g. after a
transport failure), the decoded template list per organization, and
the status code answered to the creation POST. -/
structure CoderRemote where
  getUser : String → Except String UserResp
  getTemplates : String → Except String (List TemplateEntry)
  createWorkspace : String → String → String → Nat

/-- The outcomes of `external.Create`, one per return site of the
source, plus the runtime panic that `user.Organization_ids[0]` raises
on an empty slice. -/
inductive CreateOutcome where
  | success
  | errNotWorkspaceRes
  | errDecodeUser
  | errDecodeTemplates
  | errTemplateNotFound
  | errCreateFailed (userName : String)
  | panicIndexOutOfRange
  deriving Repr, DecidableEq

/-- `strings.ReplaceAll(s, ".", "")`: every `.` is removed. -/
def stripDots (s : String) : String :=
  String.mk (s.data.filter (fun c => c ≠ '.'))

/-- The template-lookup loop of Create: `templateID` starts as the
empty string, is set to the id of the first entry whose name matches,
and the loop breaks there. -/
def findTemplate : List TemplateEntry → String → String
  | [], _ => ""
  | t :: rest, n => if t.name = n then t.id else findTemplate rest n

/-- The first entry of the list whose name matches (used to state
properties of `findTemplate`). -/
def firstMatch : List TemplateEntry → String → Option TemplateEntry
  | [], _ => none
  | t :: rest, n => if t.name = n then some t else firstMatch rest n

/-- The body of Create's workspace-creation POST, built by literal
string concatenation exactly as in the source:
`SetBody("\x7b\"template_id\":\"" + templateID + "\",\"name\":\"" + cr.GetName() + "\"\x7d")`. -/
def mkCreateBody (templateID : String) (name : String) : String :=
  "\x7b\"template_id\":\"" ++ templateID ++ "\",\"name\":\"" ++ name ++ "\"\x7d"

/-- `external.Create`: strip dots from the username, GET the user,
read `organization_ids[0]` (panicking when the list is empty), GET that
organization's templates, find the template id by name (failing with
"template not found" when it stays empty), POST the concatenated JSON
body, and fail unless the response status is 201.  Returns the outcome
together with the trace of remote calls issued. -/
def create (mg : Managed) (remote : CoderRemote) :
    CreateOutcome × List RemoteCall :=
  match mg with
  | .other => (.errNotWorkspaceRes, [])
  | .workspace cr =>
    let username := stripDots cr.spec.forProvider.userName
    let userCall := RemoteCall.getUser username
    match remote.getUser username with
    | .error _ => (.errDecodeUser, [userCall])
    | .ok user =>
      match user.organization_ids with
      | [] => (.panicIndexOutOfRange, [userCall])
      | org0 :: _ =>
        let tmplCall := RemoteCall.getTemplates org0
        match remote.getTemplates org0 with
        | .error _ => (.errDecodeTemplates, [userCall, tmplCall])
        | .ok templates =>
          let templateID := findTemplate templates cr.spec.forProvider.template
          if templateID = "" then
            (.errTemplateNotFound, [userCall, tmplCall])
          else
            let body := mkCreateBody templateID cr.name
            let postCall := RemoteCall.postWorkspace org0 user.id body
            if remote.createWorkspace org0 user.id body ≠ 201 then
              (.errCreateFailed user.name, [userCall, tmplCall, postCall])
            else
              (.success, [userCall, tmplCall, postCall])

/-- `external.Update`: type-assert, print, and return an empty
`ExternalUpdate` with a nil error; no remote call is issued (the empty
trace in the second component). -/
def update (mg : Managed) :
    Except String (ExternalUpdate × List RemoteCall) :=
  match mg with
  | .other => .error errNotWorkspace
  | .workspace _ => .ok ({ connectionDetails := [] }, [])

/-- `external.Delete`: builds the `coder delete` CLI command and runs
it; `cliResult` is the outcome of `cmd.Output()`.  When the command
fails the error is only printed, and Delete returns nil either way.
The first component is the argument vector of the command executed,
the second the error Delete returns. -/
def deleteOp (svc : CoderService) (mg : Managed)
    (cliResult : Except String String) : List String × Option String :=
  match mg with
  | .other => ([], some errNotWorkspace)
  | .workspace cr =>
    let username := stripDots cr.spec.forProvider.userName
    let cmd := ["/usr/local/bin/coder", "delete",
      username ++ "/" ++ cr.name, "--yes",
      "--url", svc.coderurl, "--token", svc.token]
    match cliResult with
    | .error _ => (cmd, none)
    | .ok _ => (cmd, none)

/-! Concrete fixtures used by counterexamples and witnesses. -/

/-- The spec's scenario desired state: username `jane.doe`, template
`base-image`, org `org1`, object name `ws1`. -/
def wsJane : Workspace :=
  { name := "ws1",
    spec := { forProvider :=
      { userName := "jane.doe", template := "base-image", orgID := "org1" } } }

/-- A concrete service handle. -/
def svcEx : CoderService := { token := "tok", coderurl := "https://coder.example" }

/-! ## C1: Observe on 5xx / transport error -/

/-- C1 (counterexample): with the remote answering Observe's GET with
status 500, Observe returns a nil error and reports `exists = false`
— it does not return any retryable error, and it does report a false
"not exists" although the resource is not genuinely absent. -/
theorem observe_5xx_counterexample :
    observe (.workspace wsJane) 500 =
      .ok { resourceExists := false, resourceUpToDate := false,
            connectionDetails := [] } := rfl

/-- C1 (amended): whenever the remote GET's response status is not 200
— a 5xx, a 404, or a discarded transport error surfacing as status 0 —
Observe returns a nil error and reports `exists = false`,
`upToDate = false`, empty connection details; it never returns a
`TransientNetworkError`. -/
theorem observe_non200_reports_absent (w : Workspace) (status : Nat)
    (h : status ≠ 200) :
    observe (.workspace w) status =
      .ok { resourceExists := false, resourceUpToDate := false,
            connectionDetails := [] } := by
  simp [observe, h]

/-- Witness for `observe_non200_reports_absent` at status 500. -/
theorem observe_non200_reports_absent_witness :
    observe (.workspace wsJane) 500 =
      .ok { resourceExists := false, resourceUpToDate := false,
            connectionDetails := [] } :=
  observe_non200_reports_absent wsJane 500 (by decide)

/-! ## C2: Delete idempotency and error propagation -/

/-- C2 (counterexample): when the CLI deletion command fails (here with
"exit status 1"), Delete still returns a nil error: the remote deletion
failure is swallowed, not propagated distinctly from "already gone". -/
theorem delete_swallows_error_counterexample :
    (deleteOp svcEx (.workspace wsJane) (.error "exit status 1")).snd = none := rfl

/-- C2 (amended): Delete always returns success (a nil error) for every
Workspace, whatever the CLI deletion outcome — so deleting an
already-absent resource is success (idempotent), but remote deletion
failures are swallowed (only printed) rather than returned as a
distinct non-nil error. -/
theorem delete_always_succeeds (svc : CoderService) (w : Workspace)
    (r : Except String String) :
    (deleteOp svc (.workspace w) r).snd = none := by
  cases r <;> rfl

/-! ## C7: Update is a no-op -/

/-- C7: for every Workspace desired state, Update issues no remote call
(the empty call trace) and returns success with empty connection
details. -/
theorem update_is_noop (w : Workspace) :
    update (.workspace w) = .ok ({ connectionDetails := [] }, []) := rfl

/-! ## C8: Observe exists implies up-to-date -/

/-- C8: whenever Observe reports that the external resource exists, the
remote GET returned status 200, and Observe also reports the resource
up-to-date with empty connection details — so Observe never triggers an
Update. -/
theorem observe_exists_implies_uptodate (w : Workspace) (status : Nat)
    (obs : ExternalObservation)
    (h : observe (.workspace w) status = .ok obs)
    (hex : obs.resourceExists = true) :
    obs.resourceUpToDate = true ∧ obs.connectionDetails = [] ∧ status = 200 := by
  by_cases hs : status = 200
  · simp [observe, hs] at h
    simp [← h, hs]
  · simp [observe, hs] at h
    rw [← h] at hex
    simp at hex

/-- Witness for `observe_exists_implies_uptodate` at status 200. -/
theorem observe_exists_implies_uptodate_witness :
    ({ resourceExists := true, resourceUpToDate := true,
       connectionDetails := [] } : ExternalObservation).resourceUpToDate = true ∧
    ({ resourceExists := true, resourceUpToDate := true,
       connectionDetails := [] } : ExternalObservation).connectionDetails = [] ∧
    (200 : Nat) = 200 :=
  observe_exists_implies_uptodate wsJane 200 _ rfl rfl

/-! ## Create fixtures and lemmas -/

/-- Remote for the spec's scenario: user `janedoe` belongs first to
`orgX` and then to `org1`; org `org1` has the template `base-image`
with id `tmpl-1`, while `orgX` has no templates; creation succeeds. -/
def remoteJane : CoderRemote :=
  { getUser := fun u =>
      if u = "janedoe" then
        .ok { id := "u1", name := "jane", organization_ids := ["orgX", "org1"] }
      else .error "user not found",
    getTemplates := fun o =>
      if o = "org1" then .ok [{ id := "tmpl-1", name := "base-image" }]
      else .ok [],
    createWorkspace := fun _ _ _ => 201 }

/-- Remote whose creation POST answers 409 (workspace already exists);
lookups resolve. -/
def remote409 : CoderRemote :=
  { getUser := fun _ =>
      .ok { id := "u1", name := "jane", organization_ids := ["org1"] },
    getTemplates := fun _ => .ok [{ id := "tmpl-1", name := "base-image" }],
    createWorkspace := fun _ _ _ => 409 }

/-- Remote whose template list contains a template with the desired
name but an empty id. -/
def remoteEmptyId : CoderRemote :=
  { getUser := fun _ =>
      .ok { id := "u1", name := "jane", organization_ids := ["org1"] },
    getTemplates := fun _ => .ok [{ id := "", name := "base-image" }],
    createWorkspace := fun _ _ _ => 201 }

/-- Remote whose user response carries an empty `organization_ids`. -/
def remoteNoOrgs : CoderRemote :=
  { getUser := fun _ =>
      .ok { id := "u1", name := "jane", organization_ids := [] },
    getTemplates := fun _ => .ok [],
    createWorkspace := fun _ _ _ => 201 }

/-- When no entry's name matches, the loop leaves `templateID` empty. -/
theorem findTemplate_of_no_match (ts : List TemplateEntry) (n : String)
    (h : ∀ t ∈ ts, t.name ≠ n) : findTemplate ts n = "" := by
  induction ts with
  | nil => rfl
  | cons t rest ih =>
    have ht : t.name ≠ n := h t (List.mem_cons_self t rest)
    simp [findTemplate, ht]
    exact ih fun u hu => h u (List.mem_cons_of_mem t hu)

/-- The loop resolves exactly the id of the first matching entry. -/
theorem findTemplate_of_firstMatch (ts : List TemplateEntry) (n : String)
    (t : TemplateEntry) (h : firstMatch ts n = some t) :
    findTemplate ts n = t.id := by
  induction ts with
  | nil => simp [firstMatch] at h
  | cons u rest ih =>
    by_cases hu : u.name = n
    · simp [firstMatch, hu] at h
      subst h
      simp [findTemplate, hu]
    · simp [firstMatch, hu] at h
      simp [findTemplate, hu, ih h]

/-- The first matching entry belongs to the list and matches. -/
theorem firstMatch_mem (ts : List TemplateEntry) (n : String)
    (t : TemplateEntry) (h : firstMatch ts n = some t) :
    t ∈ ts ∧ t.name = n := by
  induction ts with
  | nil => simp [firstMatch] at h
  | cons u rest ih =>
    by_cases hu : u.name = n
    · simp [firstMatch, hu] at h
      simp [← h, hu]
    · simp [firstMatch, hu] at h
      rcases ih h with ⟨hm, hn⟩
      exact ⟨List.mem_cons_of_mem u hm, hn⟩

/-- Unfolding of `create` in the fully-resolved case. -/
theorem create_resolved (cr : Workspace) (remote : CoderRemote)
    (user : UserResp) (org0 : String) (rest : List String)
    (templates : List TemplateEntry)
    (hu : remote.getUser (stripDots cr.spec.forProvider.userName) = .ok user)
    (ho : user.organization_ids = org0 :: rest)
    (ht : remote.getTemplates org0 = .ok templates)
    (hf : findTemplate templates cr.spec.forProvider.template ≠ "") :
    create (.workspace cr) remote =
      (if remote.createWorkspace org0 user.id
          (mkCreateBody (findTemplate templates cr.spec.forProvider.template)
            cr.name) ≠ 201 then
        CreateOutcome.errCreateFailed user.name
      else CreateOutcome.success,
      [RemoteCall.getUser (stripDots cr.spec.forProvider.userName),
       RemoteCall.getTemplates org0,
       RemoteCall.postWorkspace org0 user.id
         (mkCreateBody (findTemplate templates cr.spec.forProvider.template)
           cr.name)]) := by
  by_cases hc : remote.createWorkspace org0 user.id
      (mkCreateBody (findTemplate templates cr.spec.forProvider.template)
        cr.name) = 201 <;>
    simp [create, hu, ho, ht, hf, hc]

/-! ## C3: the scenario desired state -/

/-- C3: on the spec's scenario input (username `jane.doe`, template
`base-image`, org `org1`), Create does look up the dot-stripped user
`janedoe`, but it then fetches the template list of `orgX` — the first
entry of the user's `organization_ids` — instead of org `org1`'s list,
finds no template there, and fails with "template not found" without
issuing any POST. -/
theorem create_uses_first_org_failing_input :
    create (.workspace wsJane) remoteJane =
      (.errTemplateNotFound, [.getUser "janedoe", .getTemplates "orgX"]) := by
  decide

/-! ## C4: retry safety of Create -/

/-- C4 (counterexample): when the creation POST is answered with 409
(workspace already exists under the same name), Create returns the
creation error, not success. -/
theorem create_already_exists_counterexample :
    (create (.workspace wsJane) remote409).fst = .errCreateFailed "jane" ∧
    (create (.workspace wsJane) remote409).fst ≠ .success := by
  decide

/-- C4 (amended): whenever reference resolution succeeds and the
creation POST is answered with any status other than 201 — including
the already-exists response — Create returns a creation error rather
than treating the existing resource as success; it is not safe to
retry. -/
theorem create_non201_errors (cr : Workspace) (remote : CoderRemote)
    (user : UserResp) (org0 : String) (rest : List String)
    (templates : List TemplateEntry)
    (hu : remote.getUser (stripDots cr.spec.forProvider.userName) = .ok user)
    (ho : user.organization_ids = org0 :: rest)
    (ht : remote.getTemplates org0 = .ok templates)
    (hf : findTemplate templates cr.spec.forProvider.template ≠ "")
    (hs : remote.createWorkspace org0 user.id
        (mkCreateBody (findTemplate templates cr.spec.forProvider.template)
          cr.name) ≠ 201) :
    (create (.workspace cr) remote).fst = .errCreateFailed user.name := by
  rw [create_resolved cr remote user org0 rest templates hu ho ht hf]
  simp [hs]

/-- Witness for `create_non201_errors` on the 409 remote. -/
theorem create_non201_errors_witness :
    (create (.workspace wsJane) remote409).fst = .errCreateFailed "jane" :=
  create_non201_errors wsJane remote409
    { id := "u1", name := "jane", organization_ids := ["org1"] } "org1" []
    [{ id := "tmpl-1", name := "base-image" }]
    rfl rfl rfl (by decide) (by decide)

/-! ## C5: template resolution -/

/-- C5 (counterexample): the fetched template list contains a template
whose name equals the desired template name (with an empty id), yet
Create fails with "template not found" — so Create can fail although a
template of the desired name exists in the list. -/
theorem create_template_empty_id_counterexample :
    remoteEmptyId.getTemplates "org1" =
      .ok [{ id := "", name := "base-image" }] ∧
    (∃ t ∈ [({ id := "", name := "base-image" } : TemplateEntry)],
      t.name = wsJane.spec.forProvider.template) ∧
    (create (.workspace wsJane) remoteEmptyId).fst = .errTemplateNotFound := by
  refine ⟨rfl, ⟨{ id := "", name := "base-image" }, by simp, by decide⟩, by decide⟩

/-- C5 (amended): once the user and the template list are fetched,
Create resolves the id of the first template in the list whose name
equals the desired template name and uses exactly that id in the single
creation POST (whose body is the concatenated JSON of that id and the
object's name); it fails with "template not found" when no template in
the list has the desired name, and also when the first template of the
desired name has an empty id. -/
theorem create_template_resolution (cr : Workspace) (remote : CoderRemote)
    (user : UserResp) (org0 : String) (rest : List String)
    (templates : List TemplateEntry)
    (hu : remote.getUser (stripDots cr.spec.forProvider.userName) = .ok user)
    (ho : user.organization_ids = org0 :: rest)
    (ht : remote.getTemplates org0 = .ok templates) :
    ((∀ t ∈ templates, t.name ≠ cr.spec.forProvider.template) →
      (create (.workspace cr) remote).fst = .errTemplateNotFound) ∧
    (∀ t, firstMatch templates cr.spec.forProvider.template = some t →
      t.id = "" →
      (create (.workspace cr) remote).fst = .errTemplateNotFound) ∧
    (∀ t, firstMatch templates cr.spec.forProvider.template = some t →
      t.id ≠ "" →
      create (.workspace cr) remote =
        (if remote.createWorkspace org0 user.id (mkCreateBody t.id cr.name) ≠ 201
          then .errCreateFailed user.name else .success,
          [RemoteCall.getUser (stripDots cr.spec.forProvider.userName),
            RemoteCall.getTemplates org0,
            RemoteCall.postWorkspace org0 user.id (mkCreateBody t.id cr.name)])) := by
  refine ⟨?_, ?_, ?_⟩
  · intro hnone
    have hf := findTemplate_of_no_match templates cr.spec.forProvider.template hnone
    simp [create, hu, ho, ht, hf]
  · intro t hfm hid
    have hf : findTemplate templates cr.spec.forProvider.template = "" := by
      rw [findTemplate_of_firstMatch templates cr.spec.forProvider.template t hfm, hid]
    simp [create, hu, ho, ht, hf]
  · intro t hfm hid
    have hf := findTemplate_of_firstMatch templates cr.spec.forProvider.template t hfm
    have hr := create_resolved cr remote user org0 rest templates hu ho ht
      (by rw [hf]; exact hid)
    rw [hr, hf]

/-- Witness for `create_template_resolution` on the 409 remote. -/
theorem create_template_resolution_witness :
    create (.workspace wsJane) remote409 =
      (.errCreateFailed "jane",
        [.getUser "janedoe", .getTemplates "org1",
          .postWorkspace "org1" "u1" (mkCreateBody "tmpl-1" "ws1")]) := by
  have h := (create_template_resolution wsJane remote409
    { id := "u1", name := "jane", organization_ids := ["org1"] } "org1" []
    [{ id := "tmpl-1", name := "base-image" }] rfl rfl rfl).2.2
    { id := "tmpl-1", name := "base-image" } rfl (by decide)
  rw [h]
  decide

/-! ## C9: empty organization list -/

/-- C9: when the decoded user response carries an empty
`organization_ids` list, Create's read of its first element is out of
bounds — the run ends in the index-out-of-range panic right after the
user GET, with no error branch reporting it as a resolution failure. -/
theorem create_empty_orgs_out_of_bounds :
    create (.workspace wsJane) remoteNoOrgs =
      (.panicIndexOutOfRange, [.getUser "janedoe"]) := by
  decide

/-! ## C6: Connect error classification -/

/-- C6: provided usage tracking succeeds, Connect fails with a
credential-resolution error (`errGetPC` / `errGetCreds`) exactly when
the ProviderConfig cannot be fetched or its credential secret cannot be
read; it fails with the client-construction error (`errNewClient`)
exactly when `newCoderService` fails on the resolved credentials (which
it never does); and when both steps succeed it returns the service
bound to the resolved token and the ProviderConfig's Coder URL. -/
theorem connect_error_classification (w : Workspace) (env : ConnectEnv)
    (htrack : env.trackOk = true) :
    ((∃ e, connect (.workspace w) env = .error e ∧
        e.isCredentialResolution = true) ↔
      (env.getPC = none ∨
        ∃ pc, env.getPC = some pc ∧ env.extractCreds pc = none)) ∧
    ((∃ e, connect (.workspace w) env = .error e ∧
        e.isClientConstruction = true) ↔
      (∃ pc data msg, env.getPC = some pc ∧ env.extractCreds pc = some data ∧
        newCoderService data pc.coderUrl = .error msg)) ∧
    (∀ pc data, env.getPC = some pc → env.extractCreds pc = some data →
      connect (.workspace w) env =
        .ok { token := data, coderurl := pc.coderUrl }) := by
  refine ⟨⟨?_, ?_⟩, ⟨?_, ?_⟩, ?_⟩
  · rintro ⟨e, he, -⟩
    cases hpc : env.getPC with
    | none => exact Or.inl rfl
    | some pc =>
      cases hcr : env.extractCreds pc with
      | none => exact Or.inr ⟨pc, rfl, hcr⟩
      | some data =>
        simp [connect, htrack, hpc, hcr, newCoderService] at he
  · rintro (hpc | ⟨pc, hpc, hcr⟩)
    · exact ⟨.getPC, by simp [connect, htrack, hpc], rfl⟩
    · exact ⟨.getCreds, by simp [connect, htrack, hpc, hcr], rfl⟩
  · rintro ⟨e, he, hcc⟩
    cases hpc : env.getPC with
    | none =>
      simp [connect, htrack, hpc] at he
      rw [← he] at hcc
      simp [ConnectError.isClientConstruction] at hcc
    | some pc =>
      cases hcr : env.extractCreds pc with
      | none =>
        simp [connect, htrack, hpc, hcr] at he
        rw [← he] at hcc
        simp [ConnectError.isClientConstruction] at hcc
      | some data =>
        simp [connect, htrack, hpc, hcr, newCoderService] at he
  · rintro ⟨pc, data, msg, -, -, hnew⟩
    simp [newCoderService] at hnew
  · intro pc data hpc hcr
    simp [connect, htrack, hpc, hcr, newCoderService]

/-- A Connect environment in which every step succeeds. -/
def envOk : ConnectEnv :=
  { trackOk := true,
    getPC := some { coderUrl := "https://coder.example" },
    extractCreds := fun _ => some "tok" }

/-- Witness for `connect_error_classification`: in the all-success
environment, Connect returns the service bound to the resolved token
and endpoint. -/
theorem connect_error_classification_witness :
    connect (.workspace wsJane) envOk =
      .ok { token := "tok", coderurl := "https://coder.example" } :=
  (connect_error_classification wsJane envOk rfl).2.2
    { coderUrl := "https://coder.example" } "tok" rfl rfl

/-! ## C10: the hand-concatenated JSON body -/

/-- C10: the POST body built by Create's literal string concatenation
performs no JSON escaping, so once a template id or object name
contains a double quote the body no longer determines the intended
two-field object: two distinct (template id, name) pairs — each with a
double quote in one component — produce the very same body, and hence
no decoding function can recover the intended fields from the body for
all inputs. -/
theorem create_body_not_json_encoding :
    (mkCreateBody "u" "v\",\"name\":\"w" =
        mkCreateBody "u\",\"name\":\"v" "w" ∧
      (("u" : String), ("v\",\"name\":\"w" : String)) ≠
        (("u\",\"name\":\"v" : String), ("w" : String))) ∧
    ¬ ∃ dec : String → String × String,
        ∀ tid n, dec (mkCreateBody tid n) = (tid, n) := by
  refine ⟨⟨by decide, by decide⟩, ?_⟩
  rintro ⟨dec, hdec⟩
  have h1 := hdec "u" "v\",\"name\":\"w"
  have h2 := hdec "u\",\"name\":\"v" "w"
  have hcol : mkCreateBody "u" "v\",\"name\":\"w" =
      mkCreateBody "u\",\"name\":\"v" "w" := by decide
  rw [hcol] at h1
  rw [h1] at h2
  exact absurd h2 (by decide)
